import Mathlib

/-!
Shallow embedding of the two scripts of the `computer-vision` repository:
`src/object_tracking.py` (template tracker) and `src/object_detection.py`
(single-shot face annotator).

Modelling conventions:
* A frame is a grid of integer pixel samples (`List (List Int)`).
* Python floats (match scores) are embedded as rationals `ℚ`; the fixed
  threshold `MIN_THRESHOLD = 0.8` is `8/10 : ℚ`.
* Opaque OpenCV services are environment parameters: the camera read of an
  iteration is an `Option Frame` (with `none` standing for a failed read /
  a raised exception), `cv2.matchTemplate` is an oracle function
  `Frame → Frame → ScoreMatrix` together with a per-iteration failure flag
  (the flag set means the call raised), and `cv2.selectROI` is the
  user-chosen tuple supplied in the input.
* Side effects (prints, imshow, camera release, destroyAllWindows and the
  matchTemplate calls themselves) are recorded as an event trace, so the
  control flow of `main` becomes a function from the environment to the
  trace of events plus a run outcome.
-/

/-- A captured frame: a 2D grid of pixel samples. -/
abbrev Frame := List (List Int)

/-- Embeds `cv2.flip(frame, 1)`: horizontal mirror, i.e. every row reversed. -/
def flipHorizontal (frame : Frame) : Frame :=
  frame.map List.reverse

/-- Embeds `get_frame` (src/object_tracking.py lines 15-33): given the raw
`camera.read()` outcome (`none` = `is_success` false, which raises), return
the horizontally flipped frame; `none` models the raised exception. -/
def get_frame (readResult : Option Frame) : Option Frame :=
  readResult.map flipHorizontal

/-- Embeds `get_template` (lines 60-76): the slice
`frame[roi_y : roi_y + roi_height, roi_x : roi_x + roi_width]` for the
non-negative coordinates produced by `cv2.selectROI`. -/
def get_template (roi : Int × Int × Int × Int) (frame : Frame) : Frame :=
  let roi_x := roi.1
  let roi_y := roi.2.1
  let roi_width := roi.2.2.1
  let roi_height := roi.2.2.2
  ((frame.drop roi_y.toNat).take roi_height.toNat).map
    (fun row => (row.drop roi_x.toNat).take roi_width.toNat)

/-- The result matrix of `cv2.matchTemplate`, abstracted by the data that
`cv2.minMaxLoc` extracts from it. -/
structure ScoreMatrix where
  min_val : ℚ
  max_val : ℚ
  min_loc : Int × Int
  max_loc : Int × Int
deriving DecidableEq, Repr

/-- Embeds `cv2.minMaxLoc(result)`. -/
def minMaxLoc (result : ScoreMatrix) : ℚ × ℚ × (Int × Int) × (Int × Int) :=
  (result.min_val, result.max_val, result.min_loc, result.max_loc)

/-- `MIN_THRESHOLD = 0.8` (line 8). -/
def MIN_THRESHOLD : ℚ := 8 / 10

/-- `FONT_SIZE = 0.5` (line 11). -/
def FONT_SIZE : ℚ := 1 / 2

/-- `FONT_COLOR = (0, 255, 0)` (line 12). -/
def FONT_COLOR : Int × Int × Int := (0, 255, 0)

/-- `FONT_THICKNESS = 2` (line 13). -/
def FONT_THICKNESS : Int := 2

/-- Embeds `get_result` (lines 78-95): threshold the best match value,
returning the sentinel `(0.0, (0, 0))` below `MIN_THRESHOLD`. -/
def get_result (result : ScoreMatrix) : ℚ × (Int × Int) :=
  let mm := minMaxLoc result
  let max_val := mm.2.1
  let max_loc := mm.2.2.2
  if max_val < MIN_THRESHOLD then (0, (0, 0))
  else (max_val, max_loc)

/-- Embeds `get_tl_and_br_coordinates` (lines 97-120). -/
def get_tl_and_br_coordinates (max_loc : Int × Int) (roi : Int × Int × Int × Int) :
    (Int × Int) × (Int × Int) :=
  let top_left_coordinates := max_loc
  let top_left_x := top_left_coordinates.1
  let top_left_y := top_left_coordinates.2
  let roi_width := roi.2.2.1
  let roi_height := roi.2.2.2
  (top_left_coordinates, (top_left_x + roi_width, top_left_y + roi_height))

/-- Embeds the Python format expression `f"Match: 0.95"`-style `:.2f`
formatting of a (non-negative) score: round to hundredths and print with two
digits after the decimal point. -/
def format2f (q : ℚ) : String :=
  let cents : Int := round (q * 100)
  let whole := cents / 100
  let frac := (cents % 100).toNat
  let fracDigits := if frac < 10 then "0" ++ toString frac else toString frac
  toString whole ++ "." ++ fracDigits

/-- A rendering command issued against a frame (rectangle or text overlay). -/
inductive RenderCmd where
  | rectangle (top_left bottom_right : Int × Int) (color : Int × Int × Int)
      (thickness : Int)
  | putText (label : String) (position : Int × Int) (fontScale : ℚ)
      (color : Int × Int × Int) (thickness : Int)
deriving DecidableEq, Repr

/-- Embeds `draw_rectangle` (lines 122-149): the green box plus the
`"Match: "`-label text placed 10 pixels above the box. -/
def draw_rectangle (max_val : ℚ) (top_left bottom_right : Int × Int) :
    List RenderCmd :=
  let top_left_x := top_left.1
  let top_left_y := top_left.2
  let text_position := (top_left_x, top_left_y - 10)
  [RenderCmd.rectangle top_left bottom_right (0, 255, 0) 2,
   RenderCmd.putText ("Match: " ++ format2f max_val) text_position
     FONT_SIZE FONT_COLOR FONT_THICKNESS]

/-- C1: for every ROI `(x, y, w, h)` with `w > 0` and `h > 0` and every match
location `(mx, my)`, `get_tl_and_br_coordinates` returns top-left `(mx, my)`
and bottom-right `(mx + w, my + h)`. -/
theorem c1_box_coordinates (x y w h mx my : Int) (hw : 0 < w) (hh : 0 < h) :
    get_tl_and_br_coordinates (mx, my) (x, y, w, h) = ((mx, my), (mx + w, my + h)) :=
  rfl

/-- C1 witness: the spec scenario ROI = (50, 50, 100, 80), match location
(10, 20) yields top-left (10, 20) and bottom-right (110, 100). -/
theorem c1_box_coordinates_witness :
    get_tl_and_br_coordinates (10, 20) (50, 50, 100, 80) = ((10, 20), (110, 100)) := by
  have h := c1_box_coordinates 50 50 100 80 10 20 (by decide) (by decide)
  simpa using h

/-- C10: the box computed by `get_tl_and_br_coordinates` does not depend on the
ROI position: two ROIs with equal width and equal height give identical
`(top_left, bottom_right)` pairs for every match location. -/
theorem c10_roi_position_independence (r1 r2 : Int × Int × Int × Int)
    (loc : Int × Int) (hw : r1.2.2.1 = r2.2.2.1) (hh : r1.2.2.2 = r2.2.2.2) :
    get_tl_and_br_coordinates loc r1 = get_tl_and_br_coordinates loc r2 := by
  simp [get_tl_and_br_coordinates, hw, hh]

/-- C10 witness: ROIs (0, 0, 7, 9) and (123, 456, 7, 9) give the same box for
match location (2, 3). -/
theorem c10_roi_position_independence_witness :
    get_tl_and_br_coordinates (2, 3) (0, 0, 7, 9) =
      get_tl_and_br_coordinates (2, 3) (123, 456, 7, 9) :=
  c10_roi_position_independence (0, 0, 7, 9) (123, 456, 7, 9) (2, 3) rfl rfl

/-- One observable effect of a run: a console print, a `cv2.matchTemplate`
call (recording the frame and the template it received), an `imshow` of a
frame together with the rendering commands drawn onto it beforehand, the
camera release, or `destroyAllWindows`. -/
inductive Event where
  | printMsg (msg : String)
  | matchCall (frame template : Frame)
  | showFrame (frame : Frame) (drawn : List RenderCmd)
  | cameraRelease
  | destroyAllWindows
  | detectFaces
deriving DecidableEq, Repr

/-- Environment of one tracking-loop iteration: the raw camera read
(`none` = read failure, so `get_frame` raises), whether the
`cv2.matchTemplate` call raises, and whether the user presses the quit key
at the end of the iteration. -/
structure FrameInput where
  read : Option Frame
  matchFails : Bool
  quitKey : Bool

/-- How one iteration of the `while True` loop in `main` ends: continue with
the (possibly updated) Python local `result`, `break` out of the loop, or die
on an uncaught exception (no cleanup runs in that case). -/
inductive StepOutcome where
  | continued (result : Option ScoreMatrix)
  | broke
  | crashed
deriving DecidableEq, Repr

/-- The tail of a loop iteration after the local `result` holds a score
matrix (lines 188-200): `get_result`, the threshold-gated drawing, the
`imshow`, and the quit-key check. -/
def iterationTail (roi : Int × Int × Int × Int) (frame : Frame)
    (result : ScoreMatrix) (quitKey : Bool) : List Event × StepOutcome :=
  let res_val := (get_result result).1
  let res_loc := (get_result result).2
  let cmds :=
    if res_val ≥ MIN_THRESHOLD then
      let tlbr := get_tl_and_br_coordinates res_loc roi
      draw_rectangle res_val tlbr.1 tlbr.2
    else []
  ([Event.showFrame frame cmds],
   if quitKey then StepOutcome.broke else StepOutcome.continued (some result))

/-- One iteration of the tracking loop (lines 173-200). A failed camera read
prints and breaks. A failed `matchTemplate` call is caught and printed but
does not skip the rest of the body: the Python local `result` keeps its
previous value, and if it was never bound (first iteration) the subsequent
`get_result(result)` raises an uncaught `NameError` — modelled as
`StepOutcome.crashed`. -/
def loopStep (matchOracle : Frame → Frame → ScoreMatrix)
    (roi : Int × Int × Int × Int) (template : Frame)
    (prevResult : Option ScoreMatrix) (inp : FrameInput) :
    List Event × StepOutcome :=
  match get_frame inp.read with
  | none => ([Event.printMsg "Camera error"], StepOutcome.broke)
  | some frame =>
    if inp.matchFails then
      match prevResult with
      | none =>
        ([Event.matchCall frame template, Event.printMsg "Processing error"],
         StepOutcome.crashed)
      | some result =>
        let tail := iterationTail roi frame result inp.quitKey
        (Event.matchCall frame template :: Event.printMsg "Processing error" ::
           tail.1, tail.2)
    else
      let result := matchOracle frame template
      let tail := iterationTail roi frame result inp.quitKey
      (Event.matchCall frame template :: tail.1, tail.2)

/-- How a whole run of the tracking program ends: normal return from `main`
(cleanup ran when the loop was reached), death by uncaught exception, or the
supplied finite environment ran out while the loop was still going. -/
inductive RunOutcome where
  | finished
  | crashed
  | pending
deriving DecidableEq, Repr

/-- The `while True` loop of `main`, driven by a finite list of per-iteration
environments. `roi` and `template` are the Python locals of `main`, bound
once before the loop and never reassigned; only `result` is threaded. -/
def runLoop (matchOracle : Frame → Frame → ScoreMatrix)
    (roi : Int × Int × Int × Int) (template : Frame) :
    Option ScoreMatrix → List FrameInput → List Event × RunOutcome
  | _, [] => ([], RunOutcome.pending)
  | prevResult, inp :: rest =>
    match loopStep matchOracle roi template prevResult inp with
    | (evs, StepOutcome.continued r) =>
      let next := runLoop matchOracle roi template r rest
      (evs ++ next.1, next.2)
    | (evs, StepOutcome.broke) => (evs, RunOutcome.finished)
    | (evs, StepOutcome.crashed) => (evs, RunOutcome.crashed)

/-- Environment of a whole run of the tracking program: whether
`camera.isOpened()`, the raw read behind the initial `get_frame` call,
the tuple returned by the interactive `cv2.selectROI`, and the per-iteration
environments of the loop. -/
structure MainInput where
  cameraOpened : Bool
  sampleRead : Option Frame
  roiSelection : Int × Int × Int × Int
  frames : List FrameInput

/-- The code after the `while True` loop (lines 202-204): when the loop was
left by `break`, `main` releases the camera and destroys all windows; a crash
(or an exhausted environment) skips that cleanup. -/
def afterLoop (run : List Event × RunOutcome) : List Event × RunOutcome :=
  match run.2 with
  | RunOutcome.finished =>
    (run.1 ++ [Event.cameraRelease, Event.destroyAllWindows],
     RunOutcome.finished)
  | out => (run.1, out)

/-- Embeds the function `main` of src/object_tracking.py (lines 151-204);
named `tracking_main` here because Lean reserves the top-level name `main`.
The initial `get_frame` call is outside any try/except, so a failed initial
read is an uncaught exception (`RunOutcome.crashed`, no cleanup). The
invalid-ROI path releases the camera and returns. After the loop breaks, the
camera is released and all windows destroyed (`afterLoop`). -/
def tracking_main (matchOracle : Frame → Frame → ScoreMatrix) (inp : MainInput) :
    List Event × RunOutcome :=
  if inp.cameraOpened then
    match get_frame inp.sampleRead with
    | none => ([], RunOutcome.crashed)
    | some sample_frame =>
      let roi := inp.roiSelection
      if roi.2.2.1 = 0 ∨ roi.2.2.2 = 0 then
        ([Event.printMsg "Error: Invalid ROI selection", Event.cameraRelease],
         RunOutcome.finished)
      else
        let template := get_template roi sample_frame
        afterLoop (runLoop matchOracle roi template none inp.frames)
  else
    ([Event.printMsg "Error: Could not open camera"], RunOutcome.finished)

/-- Environment of the face-annotation program: the raw `cap.read()` outcome
(`none` = `ret` false) and the rectangles the cascade classifier returns. -/
structure DetectInput where
  captureRead : Option Frame
  faces : List (Int × Int × Int × Int)

/-- Embeds the module top level of src/object_detection.py (lines 16-62):
on a failed initial read it prints and calls `exit()` immediately — no
detection, no drawing, no display, and notably no `cap.release()` and no
`destroyAllWindows`. Otherwise it mirrors the frame, runs the classifier,
draws one green rectangle per face on the mirrored frame, shows it, and
finally releases the camera and destroys all windows. -/
def detection_main (inp : DetectInput) : List Event :=
  match inp.captureRead with
  | none => [Event.printMsg "Error: Failed to grab initial frame from camera"]
  | some frame =>
    let mirrored_frame := flipHorizontal frame
    let cmds := inp.faces.map (fun f =>
      RenderCmd.rectangle (f.1, f.2.1) (f.1 + f.2.2.1, f.2.1 + f.2.2.2)
        (0, 255, 0) 2)
    [Event.detectFaces, Event.showFrame mirrored_frame cmds,
     Event.cameraRelease, Event.destroyAllWindows]

/-- Helper: below the threshold, `get_result` returns the sentinel. -/
theorem get_result_of_lt {r : ScoreMatrix} (h : r.max_val < MIN_THRESHOLD) :
    get_result r = (0, (0, 0)) := by
  simp [get_result, minMaxLoc, h]

/-- Helper: at or above the threshold, `get_result` is the identity on the
best value and location. -/
theorem get_result_of_ge {r : ScoreMatrix} (h : MIN_THRESHOLD ≤ r.max_val) :
    get_result r = (r.max_val, r.max_loc) := by
  simp [get_result, minMaxLoc, not_lt.2 h]

/-- C2: for every match score below the fixed 0.8 threshold, `get_result`
returns the sentinel `(0.0, (0, 0))` regardless of the match location, and a
loop iteration whose (successful) match scores below the threshold shows the
frame with no drawing commands on it. -/
theorem c2_subthreshold_sentinel :
    (∀ result : ScoreMatrix, result.max_val < MIN_THRESHOLD →
        get_result result = (0, (0, 0))) ∧
    (∀ (matchOracle : Frame → Frame → ScoreMatrix)
        (roi : Int × Int × Int × Int) (template : Frame)
        (prevResult : Option ScoreMatrix) (inp : FrameInput) (raw : Frame),
        inp.read = some raw → inp.matchFails = false →
        (matchOracle (flipHorizontal raw) template).max_val < MIN_THRESHOLD →
        (loopStep matchOracle roi template prevResult inp).1 =
          [Event.matchCall (flipHorizontal raw) template,
           Event.showFrame (flipHorizontal raw) []]) := by
  constructor
  · intro result h
    exact get_result_of_lt h
  · intro matchOracle roi template prevResult inp raw hread hmf hlt
    have hzero : ¬ (get_result (matchOracle (flipHorizontal raw) template)).1
        ≥ MIN_THRESHOLD := by
      rw [get_result_of_lt hlt]
      norm_num [MIN_THRESHOLD]
    simp [loopStep, hread, get_frame, hmf, iterationTail, hzero]

/-- C2 witness: a concrete score matrix with max value 1/2 < 0.8 is mapped to
the sentinel, and a concrete iteration with such a match shows the frame with
no box. -/
theorem c2_subthreshold_sentinel_witness :
    get_result ⟨0, 1/2, (0, 0), (3, 4)⟩ = (0, (0, 0)) ∧
    (loopStep (fun _ _ => ⟨0, 1/2, (0, 0), (3, 4)⟩) (0, 0, 1, 1) [[5]] none
        ⟨some [[7]], false, false⟩).1 =
      [Event.matchCall [[7]] [[5]], Event.showFrame [[7]] []] :=
  ⟨c2_subthreshold_sentinel.1 ⟨0, 1/2, (0, 0), (3, 4)⟩ (by norm_num [MIN_THRESHOLD]),
   c2_subthreshold_sentinel.2 (fun _ _ => ⟨0, 1/2, (0, 0), (3, 4)⟩)
     (0, 0, 1, 1) [[5]] none ⟨some [[7]], false, false⟩ [[7]] rfl rfl
     (by norm_num [MIN_THRESHOLD])⟩

/-- C3: for every match score at or above 0.8, `get_result` returns the
`(score, location)` pair unchanged; a loop iteration whose match scores at or
above the threshold shows the frame with exactly the box and label drawn by
`draw_rectangle` at the matched box; and the label at score 0.95 is
`"Match: 0.95"` (the score formatted to two decimals). -/
theorem c3_above_threshold_unchanged :
    (∀ result : ScoreMatrix, MIN_THRESHOLD ≤ result.max_val →
        get_result result = (result.max_val, result.max_loc)) ∧
    (∀ (matchOracle : Frame → Frame → ScoreMatrix)
        (roi : Int × Int × Int × Int) (template : Frame)
        (prevResult : Option ScoreMatrix) (inp : FrameInput) (raw : Frame),
        inp.read = some raw → inp.matchFails = false →
        MIN_THRESHOLD ≤ (matchOracle (flipHorizontal raw) template).max_val →
        (loopStep matchOracle roi template prevResult inp).1 =
          [Event.matchCall (flipHorizontal raw) template,
           Event.showFrame (flipHorizontal raw)
             (draw_rectangle (matchOracle (flipHorizontal raw) template).max_val
               (get_tl_and_br_coordinates
                 (matchOracle (flipHorizontal raw) template).max_loc roi).1
               (get_tl_and_br_coordinates
                 (matchOracle (flipHorizontal raw) template).max_loc roi).2)]) ∧
    "Match: " ++ format2f (0.95 : ℚ) = "Match: 0.95" := by
  have hlabel : "Match: " ++ format2f (0.95 : ℚ) = "Match: 0.95" := by
    have h : round ((0.95 : ℚ) * 100) = 95 := by norm_num [round_eq]
    simp only [format2f, h]
    rfl
  refine ⟨fun result h => get_result_of_ge h, ?_, hlabel⟩
  intro matchOracle roi template prevResult inp raw hread hmf hge
  have hres := get_result_of_ge hge
  simp [loopStep, hread, get_frame, hmf, iterationTail, hres, hge]

/-- C3 witness: a concrete score matrix with max value 0.95 ≥ 0.8 passes
through unchanged, a concrete iteration draws that box, and the label reads
`"Match: 0.95"`. -/
theorem c3_above_threshold_unchanged_witness :
    get_result ⟨0, 0.95, (0, 0), (3, 4)⟩ = (0.95, (3, 4)) ∧
    (loopStep (fun _ _ => ⟨0, 0.95, (0, 0), (3, 4)⟩) (0, 0, 1, 1) [[5]] none
        ⟨some [[7]], false, false⟩).1 =
      [Event.matchCall [[7]] [[5]],
       Event.showFrame [[7]] (draw_rectangle 0.95 (3, 4) (4, 5))] ∧
    "Match: " ++ format2f (0.95 : ℚ) = "Match: 0.95" := by
  refine ⟨c3_above_threshold_unchanged.1 ⟨0, 0.95, (0, 0), (3, 4)⟩
    (by norm_num [MIN_THRESHOLD]), ?_, c3_above_threshold_unchanged.2.2⟩
  have h := c3_above_threshold_unchanged.2.1 (fun _ _ => ⟨0, 0.95, (0, 0), (3, 4)⟩)
    (0, 0, 1, 1) [[5]] none ⟨some [[7]], false, false⟩ [[7]] rfl rfl
    (by norm_num [MIN_THRESHOLD])
  simpa [get_tl_and_br_coordinates] using h

/-- Helper: the after-loop code preserves the run outcome. -/
theorem afterLoop_outcome (run : List Event × RunOutcome) :
    (afterLoop run).2 = run.2 := by
  rcases run with ⟨evs, out⟩
  cases out <;> rfl

/-- Helper: when the loop ended by `break`, the cleanup events are appended. -/
theorem afterLoop_finished (run : List Event × RunOutcome)
    (h : run.2 = RunOutcome.finished) :
    (afterLoop run).1 = run.1 ++ [Event.cameraRelease, Event.destroyAllWindows] := by
  rcases run with ⟨evs, out⟩
  cases out <;> simp_all [afterLoop]

/-- Helper: with the camera open, a successful initial read and a
non-degenerate ROI, `tracking_main` is the loop followed by the cleanup. -/
theorem tracking_main_valid_eq (matchOracle : Frame → Frame → ScoreMatrix)
    (inp : MainInput) (raw : Frame) (hco : inp.cameraOpened = true)
    (hsr : inp.sampleRead = some raw)
    (hw : inp.roiSelection.2.2.1 ≠ 0) (hh : inp.roiSelection.2.2.2 ≠ 0) :
    tracking_main matchOracle inp =
      afterLoop (runLoop matchOracle inp.roiSelection
        (get_template inp.roiSelection (flipHorizontal raw)) none inp.frames) := by
  simp [tracking_main, hco, hsr, get_frame, hw, hh]

/-- Helper: with the camera open and the initial frame captured, a degenerate
ROI makes `tracking_main` return the error print plus the camera release. -/
theorem tracking_main_invalid_eq (matchOracle : Frame → Frame → ScoreMatrix)
    (inp : MainInput) (raw : Frame) (hco : inp.cameraOpened = true)
    (hsr : inp.sampleRead = some raw)
    (hroi : inp.roiSelection.2.2.1 = 0 ∨ inp.roiSelection.2.2.2 = 0) :
    tracking_main matchOracle inp =
      ([Event.printMsg "Error: Invalid ROI selection", Event.cameraRelease],
       RunOutcome.finished) := by
  rcases hroi with h | h <;> simp [tracking_main, hco, hsr, get_frame, h]

/-- C6: whenever the selected ROI has width 0 or height 0 (with the camera
open and the initial frame captured), `tracking_main` prints the error,
releases the camera and returns at once: the whole trace is just those two
events, so no template matching and no tracking iteration ever happens. -/
theorem c6_invalid_roi_aborts (matchOracle : Frame → Frame → ScoreMatrix)
    (inp : MainInput) (raw : Frame) (hco : inp.cameraOpened = true)
    (hsr : inp.sampleRead = some raw)
    (hroi : inp.roiSelection.2.2.1 = 0 ∨ inp.roiSelection.2.2.2 = 0) :
    tracking_main matchOracle inp =
      ([Event.printMsg "Error: Invalid ROI selection", Event.cameraRelease],
       RunOutcome.finished) :=
  tracking_main_invalid_eq matchOracle inp raw hco hsr hroi

/-- C6 witness: a concrete run with ROI (0, 0, 0, 5) aborts with exactly the
error print and the camera release. -/
theorem c6_invalid_roi_aborts_witness :
    tracking_main (fun _ _ => ⟨0, 0, (0, 0), (0, 0)⟩)
        ⟨true, some [[1]], (0, 0, 0, 5), []⟩ =
      ([Event.printMsg "Error: Invalid ROI selection", Event.cameraRelease],
       RunOutcome.finished) :=
  c6_invalid_roi_aborts (fun _ _ => ⟨0, 0, (0, 0), (0, 0)⟩)
    ⟨true, some [[1]], (0, 0, 0, 5), []⟩ [[1]] rfl rfl (Or.inl rfl)

/-- C7: a failed per-frame camera read makes the loop print the camera error
and break immediately — no event from any later iteration environment is
produced — and whenever a run with the camera open, a captured initial frame
and a non-degenerate ROI ends with `RunOutcome.finished`, its trace ends with
the camera release and `destroyAllWindows`. -/
theorem c7_read_failure_breaks_loop :
    (∀ (matchOracle : Frame → Frame → ScoreMatrix) (roi : Int × Int × Int × Int)
        (template : Frame) (prevResult : Option ScoreMatrix)
        (fi : FrameInput) (rest : List FrameInput), fi.read = none →
        runLoop matchOracle roi template prevResult (fi :: rest) =
          ([Event.printMsg "Camera error"], RunOutcome.finished)) ∧
    (∀ (matchOracle : Frame → Frame → ScoreMatrix) (inp : MainInput) (raw : Frame),
        inp.cameraOpened = true → inp.sampleRead = some raw →
        inp.roiSelection.2.2.1 ≠ 0 → inp.roiSelection.2.2.2 ≠ 0 →
        (tracking_main matchOracle inp).2 = RunOutcome.finished →
        ∃ evs, (tracking_main matchOracle inp).1 =
          evs ++ [Event.cameraRelease, Event.destroyAllWindows]) := by
  constructor
  · intro matchOracle roi template prevResult fi rest hread
    simp [runLoop, loopStep, hread, get_frame]
  · intro matchOracle inp raw hco hsr hw hh hfin
    rw [tracking_main_valid_eq matchOracle inp raw hco hsr hw hh] at hfin ⊢
    rw [afterLoop_outcome] at hfin
    exact ⟨_, afterLoop_finished _ hfin⟩

/-- C7 witness: in a concrete run whose first loop iteration has a failed
camera read, the loop produces just the camera-error print and finishes, and
the whole run's trace ends with the cleanup events. -/
theorem c7_read_failure_breaks_loop_witness :
    runLoop (fun _ _ => ⟨0, 0, (0, 0), (0, 0)⟩) (0, 0, 1, 1) [[2]] none
        [⟨none, false, false⟩, ⟨some [[9]], false, true⟩] =
      ([Event.printMsg "Camera error"], RunOutcome.finished) ∧
    ∃ evs, (tracking_main (fun _ _ => ⟨0, 0, (0, 0), (0, 0)⟩)
        ⟨true, some [[1, 2], [3, 4]], (0, 0, 1, 1), [⟨none, false, false⟩]⟩).1 =
      evs ++ [Event.cameraRelease, Event.destroyAllWindows] :=
  ⟨c7_read_failure_breaks_loop.1 (fun _ _ => ⟨0, 0, (0, 0), (0, 0)⟩)
      (0, 0, 1, 1) [[2]] none ⟨none, false, false⟩ [⟨some [[9]], false, true⟩] rfl,
   c7_read_failure_breaks_loop.2 (fun _ _ => ⟨0, 0, (0, 0), (0, 0)⟩)
      ⟨true, some [[1, 2], [3, 4]], (0, 0, 1, 1), [⟨none, false, false⟩]⟩
      [[1, 2], [3, 4]] rfl rfl (by decide) (by decide) (by decide)⟩

/-- C9: in the face-annotation program, a failed initial capture produces
exactly the error print — no detection, no drawing, no display, no retry (and
also no release/close, see the resource-management analysis). -/
theorem c9_capture_failure_exits (inp : DetectInput)
    (h : inp.captureRead = none) :
    detection_main inp =
      [Event.printMsg "Error: Failed to grab initial frame from camera"] := by
  simp [detection_main, h]

/-- C9 witness: the concrete failed-capture run. -/
theorem c9_capture_failure_exits_witness :
    detection_main ⟨none, []⟩ =
      [Event.printMsg "Error: Failed to grab initial frame from camera"] :=
  c9_capture_failure_exits ⟨none, []⟩ rfl

/-- C5 counterexample: on the hard-capture-failure exit path of the
face-annotation program the process ends without ever releasing the camera
(and without closing windows), so it is false that the camera is released on
every exit path of both programs. -/
theorem c5_release_counterexample :
    detection_main ⟨none, []⟩ =
      [Event.printMsg "Error: Failed to grab initial frame from camera"] ∧
    Event.cameraRelease ∉ detection_main ⟨none, []⟩ ∧
    Event.destroyAllWindows ∉ detection_main ⟨none, []⟩ := by
  refine ⟨rfl, ?_, ?_⟩ <;> decide

/-- C5 amended: in the tracking program, on every exit path on which `main`
returns normally after the camera opened and the initial frame was captured
(invalid-ROI abort or loop break), the camera is released — and when the ROI
was non-degenerate, all windows are destroyed as well; in the detection
program, the camera is released and all windows closed whenever the initial
capture succeeds. (On hard capture failures — the counterexample — and on
the uncaught first-iteration processing error, no cleanup runs.) -/
theorem c5_amended_cleanup :
    (∀ (matchOracle : Frame → Frame → ScoreMatrix) (inp : MainInput) (raw : Frame),
        inp.cameraOpened = true → inp.sampleRead = some raw →
        (tracking_main matchOracle inp).2 = RunOutcome.finished →
        Event.cameraRelease ∈ (tracking_main matchOracle inp).1 ∧
        (inp.roiSelection.2.2.1 ≠ 0 → inp.roiSelection.2.2.2 ≠ 0 →
          Event.destroyAllWindows ∈ (tracking_main matchOracle inp).1)) ∧
    (∀ (inp : DetectInput) (raw : Frame), inp.captureRead = some raw →
        Event.cameraRelease ∈ detection_main inp ∧
        Event.destroyAllWindows ∈ detection_main inp) := by
  constructor
  · intro matchOracle inp raw hco hsr hfin
    by_cases hw : inp.roiSelection.2.2.1 = 0
    · rw [tracking_main_invalid_eq matchOracle inp raw hco hsr (Or.inl hw)]
      simp [hw]
    · by_cases hh : inp.roiSelection.2.2.2 = 0
      · rw [tracking_main_invalid_eq matchOracle inp raw hco hsr (Or.inr hh)]
        simp [hh]
      · rw [tracking_main_valid_eq matchOracle inp raw hco hsr hw hh] at hfin ⊢
        rw [afterLoop_outcome] at hfin
        rw [afterLoop_finished _ hfin]
        simp
  · intro inp raw hsr
    simp [detection_main, hsr]

/-- C5 amended witness: on a concrete invalid-ROI run the camera is released,
and on a concrete successful detection run both cleanup events occur. -/
theorem c5_amended_cleanup_witness :
    Event.cameraRelease ∈ (tracking_main (fun _ _ => ⟨0, 0, (0, 0), (0, 0)⟩)
        ⟨true, some [[3]], (0, 0, 2, 0), []⟩).1 ∧
    Event.cameraRelease ∈ detection_main ⟨some [[3]], []⟩ ∧
    Event.destroyAllWindows ∈ detection_main ⟨some [[3]], []⟩ :=
  ⟨(c5_amended_cleanup.1 (fun _ _ => ⟨0, 0, (0, 0), (0, 0)⟩)
      ⟨true, some [[3]], (0, 0, 2, 0), []⟩ [[3]] rfl rfl (by decide)).1,
   (c5_amended_cleanup.2 ⟨some [[3]], []⟩ [[3]] rfl).1,
   (c5_amended_cleanup.2 ⟨some [[3]], []⟩ [[3]] rfl).2⟩

/-- C4 evaluation: a valid setup whose first loop iteration has a failed
matchTemplate call. The except block prints, but the Python local `result`
was never bound, so `get_result(result)` raises an uncaught NameError: the
run ends as `crashed` — the frame is not displayed and no cleanup events
appear, contradicting the claim that such a failure is non-fatal. -/
theorem c4_first_iteration_match_failure_crash :
    tracking_main (fun _ _ => ⟨0, 0, (0, 0), (0, 0)⟩)
        ⟨true, some [[1, 2], [3, 4]], (0, 0, 1, 1),
          [⟨some [[5, 6], [7, 8]], true, false⟩]⟩ =
      ([Event.matchCall [[6, 5], [8, 7]] [[2]],
        Event.printMsg "Processing error"], RunOutcome.crashed) := by
  rfl

/-- Helper: any `matchTemplate` call recorded by one loop iteration received
exactly the loop's template as its second argument. -/
theorem loopStep_matchCall_template
    (matchOracle : Frame → Frame → ScoreMatrix) (roi : Int × Int × Int × Int)
    (template : Frame) (prevResult : Option ScoreMatrix) (inp : FrameInput)
    (f t : Frame)
    (h : Event.matchCall f t ∈ (loopStep matchOracle roi template prevResult inp).1) :
    t = template := by
  unfold loopStep at h
  split at h
  · simp at h
  · split at h
    · split at h
      · simp at h
        tauto
      · simp [iterationTail] at h
        tauto
    · simp [iterationTail] at h
      tauto

/-- Helper: any `matchTemplate` call recorded anywhere in a run of the loop
received exactly the loop's template. -/
theorem runLoop_matchCall_template
    (matchOracle : Frame → Frame → ScoreMatrix) (roi : Int × Int × Int × Int)
    (template : Frame) :
    ∀ (l : List FrameInput) (prevResult : Option ScoreMatrix) (f t : Frame),
      Event.matchCall f t ∈ (runLoop matchOracle roi template prevResult l).1 →
      t = template := by
  intro l
  induction l with
  | nil =>
    intro prevResult f t h
    simp [runLoop] at h
  | cons inp rest ih =>
    intro prevResult f t h
    unfold runLoop at h
    split at h
    case _ evs r heq =>
      rcases List.mem_append.1 h with hl | hr
      · exact loopStep_matchCall_template matchOracle roi template prevResult inp
          f t (by rw [heq]; exact hl)
      · exact ih r f t hr
    case _ evs heq =>
      exact loopStep_matchCall_template matchOracle roi template prevResult inp
        f t (by rw [heq]; exact h)
    case _ evs heq =>
      exact loopStep_matchCall_template matchOracle roi template prevResult inp
        f t (by rw [heq]; exact h)

/-- Helper: the after-loop cleanup adds no `matchTemplate` call. -/
theorem afterLoop_matchCall (run : List Event × RunOutcome) (f t : Frame)
    (h : Event.matchCall f t ∈ (afterLoop run).1) :
    Event.matchCall f t ∈ run.1 := by
  rcases run with ⟨evs, out⟩
  cases out <;> simp_all [afterLoop]

/-- C8: the template and the ROI are bound once before the loop and never
reassigned (structurally, `runLoop` threads only the `result` local), and
every `matchTemplate` call in any run — at the loop level and at the whole
program level — receives the one template extracted from the selected ROI of
the initial sample frame. -/
theorem c8_template_immutable :
    (∀ (matchOracle : Frame → Frame → ScoreMatrix) (roi : Int × Int × Int × Int)
        (template : Frame) (prevResult : Option ScoreMatrix)
        (l : List FrameInput) (f t : Frame),
        Event.matchCall f t ∈ (runLoop matchOracle roi template prevResult l).1 →
        t = template) ∧
    (∀ (matchOracle : Frame → Frame → ScoreMatrix) (inp : MainInput)
        (raw f t : Frame),
        inp.cameraOpened = true → inp.sampleRead = some raw →
        Event.matchCall f t ∈ (tracking_main matchOracle inp).1 →
        t = get_template inp.roiSelection (flipHorizontal raw)) := by
  constructor
  · intro matchOracle roi template prevResult l f t h
    exact runLoop_matchCall_template matchOracle roi template l prevResult f t h
  · intro matchOracle inp raw f t hco hsr h
    by_cases hw : inp.roiSelection.2.2.1 = 0
    · rw [tracking_main_invalid_eq matchOracle inp raw hco hsr (Or.inl hw)] at h
      simp at h
    · by_cases hh : inp.roiSelection.2.2.2 = 0
      · rw [tracking_main_invalid_eq matchOracle inp raw hco hsr (Or.inr hh)] at h
        simp at h
      · rw [tracking_main_valid_eq matchOracle inp raw hco hsr hw hh] at h
        exact runLoop_matchCall_template matchOracle inp.roiSelection
          (get_template inp.roiSelection (flipHorizontal raw)) inp.frames none
          f t (afterLoop_matchCall _ f t h)

/-- C8 witness: in a concrete run the template of the recorded match call is
exactly the slice of the flipped sample frame under the selected ROI. -/
theorem c8_template_immutable_witness :
    ([[2]] : Frame) = get_template (0, 0, 1, 1) (flipHorizontal [[1, 2], [3, 4]]) :=
  c8_template_immutable.2 (fun _ _ => ⟨0, 0, (0, 0), (0, 0)⟩)
    ⟨true, some [[1, 2], [3, 4]], (0, 0, 1, 1), [⟨some [[5, 6], [7, 8]], true, false⟩]⟩
    [[1, 2], [3, 4]] [[6, 5], [8, 7]] [[2]] rfl rfl (by decide)
